import Mathlib

/-!
Shallow embedding of the Tadu crawler (`src/app.py`) and proofs about it.

The program is a Flask endpoint that discovers book IDs on a catalog page,
then concurrently crawls per-book metadata and the first `n` chapters of
each book.  Network I/O is modelled by oracles:

* for `safe_get`, an oracle `attempt : Nat → Option α` gives the outcome of
  each HTTP attempt (`some resp` = a 2xx response, `none` = connection
  error, timeout, or non-2xx status, i.e. the `except` branch);
* for the higher-level crawl functions, an oracle of type
  `Except String β` gives the overall outcome of a `safe_get` call plus
  parsing: `.error e` means `safe_get` (or `resp.json()`) raised the
  exception `e` after exhausting its retries, `.ok v` gives the parsed
  payload (the list of `h4` texts, the JSON envelope, the anchor hrefs...).

Thread pools (`ThreadPoolExecutor` + `as_completed`) are modelled by an
explicit completion order: a list of task keys that is a permutation of
the submitted keys.  `f.result()` re-raises a task's exception, so the
collection loop is a fold that stops at the first errored task in
completion order.
-/

namespace TaduCrawler

/-! ### Fetcher: `safe_get` (src/app.py lines 24-35)

`for attempt in range(retries): try: GET; return resp; except: sleep`.
The model returns the result together with the number of `time.sleep`
calls performed; a sleep happens after every failed attempt, including
the last one, before the final exception is raised.  -/

/-- Message of the exception raised when every attempt failed
(`"Không thể truy cập {url} sau {retries} lần"`). -/
def safe_get_msg (url : String) (retries : Nat) : String :=
  "Không thể truy cập " ++ url ++ " sau " ++ toString retries ++ " lần"

/-- The `for attempt in range(retries)` loop of `safe_get`: walk the list of
remaining attempt numbers, returning on the first success and counting one
sleep per failure. -/
def safe_get_go {α : Type} (attempt : Nat → Option α) (url : String)
    (retries : Nat) : List Nat → Nat → Except String α × Nat
  | [], sleeps => (.error (safe_get_msg url retries), sleeps)
  | a :: rest, sleeps =>
    match attempt a with
    | some resp => (.ok resp, sleeps)
    | none => safe_get_go attempt url retries rest (sleeps + 1)

/-- `safe_get(url, ..., retries, sleep)`: run the attempts `0,...,retries-1`.
First component: the returned response or the raised exception; second
component: how many times `time.sleep(sleep)` ran. -/
def safe_get {α : Type} (attempt : Nat → Option α) (url : String)
    (retries : Nat) : Except String α × Nat :=
  safe_get_go attempt url retries (List.range retries) 0

/-! ### Extractor: chapter title (src/app.py lines 95-103)

`crawl_chapter_title` fetches the chapter page and then inspects the list
of `<h4>` tag texts: `h4_tags[1]` if there are at least two, else
`h4_tags[0]` if there is one, else the synthesized label
`f"Chương {chapter_index}"`. -/

/-- Pure part of `crawl_chapter_title`: pick the title from the page's list
of `h4` texts (`src/app.py` lines 100-103). -/
def extract_chapter_title (h4_texts : List String) (chapter_index : Int) : String :=
  match h4_texts with
  | _ :: second :: _ => second
  | [only] => only
  | [] => "Chương " ++ toString chapter_index

/-- `crawl_chapter_title` (lines 95-103): the oracle gives the outcome of
`safe_get` + BeautifulSoup on the chapter reader page as the list of `h4`
texts; a fetch failure propagates as an exception. -/
def crawl_chapter_title (fetched : Except String (List String))
    (chapter_index : Int) : Except String String :=
  Except.map (fun h4_texts => extract_chapter_title h4_texts chapter_index) fetched

/-! ### Claim theorems about the Fetcher and the title extractor -/

/-- C4: with `retries = 3` (the Fetcher's `maxAttempts`), if the first two
attempts fail and the third succeeds with response `resp`, then `safe_get`
returns `resp` and slept exactly 2 times (once after each failed attempt,
never after the successful one). -/
theorem safe_get_two_failures_then_success {α : Type} (attempt : Nat → Option α)
    (url : String) (resp : α) (h0 : attempt 0 = none) (h1 : attempt 1 = none)
    (h2 : attempt 2 = some resp) :
    safe_get attempt url 3 = (.ok resp, 2) := by
  have hr : List.range 3 = [0, 1, 2] := rfl
  simp [safe_get, hr, safe_get_go, h0, h1, h2]

/-- Witness for C4 at a concrete endpoint that fails twice then succeeds. -/
theorem safe_get_two_failures_then_success_witness :
    safe_get (fun a => if a = 2 then some "body" else none) "http://x" 3
      = (.ok "body", 2) :=
  safe_get_two_failures_then_success _ "http://x" "body" rfl rfl rfl

/-- Helper for C10: if every attempt in the remaining list fails, the loop
errors out with the `safe_get` message, having added one sleep per attempt. -/
theorem safe_get_go_all_fail {α : Type} (attempt : Nat → Option α) (url : String)
    (retries : Nat) :
    ∀ (l : List Nat) (s : Nat), (∀ a ∈ l, attempt a = none) →
      safe_get_go attempt url retries l s
        = (.error (safe_get_msg url retries), s + l.length) := by
  intro l
  induction l with
  | nil => intro s _; simp [safe_get_go]
  | cons a t ih =>
    intro s h
    have ha : attempt a = none := h a (List.mem_cons_self a t)
    have ht : ∀ b ∈ t, attempt b = none := fun b hb => h b (List.mem_cons_of_mem a hb)
    simp only [safe_get_go, ha, List.length_cons]
    rw [ih (s + 1) ht]
    congr 1
    omega

/-- C10: if every one of the `retries` attempts fails, `safe_get` raises the
exception whose message embeds the requested URL, after sleeping exactly
`retries` times — one sleep after each failed attempt, the last sleep
happening after the final failure and before the raise. -/
theorem safe_get_all_fail (retries : Nat) {α : Type} (attempt : Nat → Option α)
    (url : String) (h : ∀ a < retries, attempt a = none) :
    safe_get attempt url retries = (.error (safe_get_msg url retries), retries) ∧
    ∃ pre post, safe_get_msg url retries = pre ++ url ++ post := by
  constructor
  · have := safe_get_go_all_fail attempt url retries (List.range retries) 0
      (fun a ha => h a (List.mem_range.mp ha))
    simpa [safe_get, List.length_range] using this
  · refine ⟨"Không thể truy cập ", " sau " ++ toString retries ++ " lần", ?_⟩
    simp [safe_get_msg, String.append_assoc]

/-- Witness for C10: two attempts, both failing, on a concrete URL. -/
theorem safe_get_all_fail_witness :
    safe_get (fun _ => (none : Option String)) "http://y" 2
      = (.error (safe_get_msg "http://y" 2), 2) ∧
    ∃ pre post, safe_get_msg "http://y" 2 = pre ++ "http://y" ++ post :=
  safe_get_all_fail 2 (fun _ => none) "http://y" (fun _ _ => rfl)

/-- C7: chapter-title extraction returns the second `h4` text when at least
two exist, the first when exactly one exists, and otherwise the synthesized
label `"Chương {index}"`, which embeds the chapter index. -/
theorem extract_chapter_title_cases (h4_texts : List String) (i : Int) :
    (∀ a b rest, h4_texts = a :: b :: rest → extract_chapter_title h4_texts i = b) ∧
    (∀ a, h4_texts = [a] → extract_chapter_title h4_texts i = a) ∧
    (h4_texts = [] →
      extract_chapter_title h4_texts i = "Chương " ++ toString i ∧
      ∃ pre post, extract_chapter_title h4_texts i = pre ++ toString i ++ post) := by
  refine ⟨?_, ?_, ?_⟩
  · intro a b rest hh; subst hh; rfl
  · intro a hh; subst hh; rfl
  · intro hh; subst hh
    refine ⟨rfl, "Chương ", "", ?_⟩
    simp [extract_chapter_title, String.append_empty]

/-- Witness for C7: the three cases at concrete inputs. -/
theorem extract_chapter_title_cases_witness :
    extract_chapter_title ["first", "second"] 9 = "second" ∧
    extract_chapter_title ["first"] 9 = "first" ∧
    extract_chapter_title [] 9 = "Chương " ++ toString (9 : Int) :=
  ⟨(extract_chapter_title_cases ["first", "second"] 9).1 "first" "second" [] rfl,
   (extract_chapter_title_cases ["first"] 9).2.1 "first" rfl,
   ((extract_chapter_title_cases [] 9).2.2 rfl).1⟩

/-! ### Extractor: chapter content (src/app.py lines 105-119)

`crawl_chapter_content` fetches a JSON envelope
`{"status": ..., "data": {"content": <html>}}`.  A JSON object field that
may be absent is an `Option`; the raw content HTML is a tree of tags and
text nodes, and `BeautifulSoup(...).get_text(separator="\n")` joins the
text nodes with a newline between consecutive ones. -/

/-- Parsed HTML fragment: a text node or a tag with children (markup
attributes are irrelevant to `get_text`). -/
inductive Html where
  | text (s : String) : Html
  | tag (children : List Html) : Html

mutual

/-- The text nodes of an HTML fragment, in document order. -/
def Html.texts : Html → List String
  | .text s => [s]
  | .tag children => htmlListTexts children

/-- The text nodes of a list of HTML fragments, in document order. -/
def htmlListTexts : List Html → List String
  | [] => []
  | h :: t => h.texts ++ htmlListTexts t

end

/-- `BeautifulSoup(raw, "html.parser").get_text(separator="\n")`: all text
nodes joined with a newline between consecutive ones (paragraph breaks
become newlines, markup is stripped). -/
def get_text_newline (h : Html) : String :=
  String.intercalate "\n" h.texts

/-- The `"data"` object of the content API envelope; its `"content"` key may
be absent (`data["data"]["content"]` then raises `KeyError`). -/
structure ApiData where
  content : Option Html

/-- The JSON envelope returned by `getPartContentByCodeTable`: a `"status"`
field (absent ⇒ `data.get("status")` is `None`) and a `"data"` object. -/
structure ApiResponse where
  status : Option Int
  data : Option ApiData

/-- `crawl_chapter_content` (lines 105-119): the oracle gives the outcome of
`safe_get` + `resp.json()` on the content API (`.error` = either raised).
Everything runs inside `try/except`, so a fetch failure, a non-200 status,
or a missing nested field all degrade to the empty string. -/
def crawl_chapter_content (fetched : Except String ApiResponse) : String :=
  match fetched with
  | .error _ => ""
  | .ok resp =>
    if resp.status ≠ some 200 then ""
    else
      match resp.data with
      | none => ""
      | some d =>
        match d.content with
        | none => ""
        | some raw => get_text_newline raw

/-! ### Chapter Fan-Out (src/app.py lines 121-137) -/

/-- The chapter record `{"index": i, "title": ..., "content": ...}` built by
`crawl_single`. -/
structure Chapter where
  index : Int
  title : String
  content : String
deriving DecidableEq

/-- Ordering used by `chapters.sort(key=lambda x: x["index"])`. -/
def chapterLE (a b : Chapter) : Prop := a.index ≤ b.index

instance : DecidableRel chapterLE := fun a b => Int.decLe a.index b.index

instance : IsTotal Chapter chapterLE := ⟨fun a b => Int.le_total a.index b.index⟩

instance : IsTrans Chapter chapterLE := ⟨fun _ _ _ h h' => le_trans h h'⟩

/-- `crawl_single(i)` (lines 124-127): fetch the title (its fetch failure
propagates — there is no `try/except` around `crawl_chapter_title`), then the
content (never fails), and build the chapter record.  `titleO i` is the
outcome of the title-page fetch for chapter `i`, `contentO i` that of the
content-API fetch. -/
def crawl_single (titleO : Int → Except String (List String))
    (contentO : Int → Except String ApiResponse) (i : Int) :
    Except String Chapter :=
  match crawl_chapter_title (titleO i) i with
  | .error e => .error e
  | .ok title => .ok ⟨i, title, crawl_chapter_content (contentO i)⟩

/-- The chapter indices submitted to the pool: `range(1, n+1)` on the Python
`int` argument `n`, i.e. `[1, ..., n]`, empty when `n ≤ 0`. -/
def chapterIndices (n : Int) : List Int :=
  (List.range n.toNat).map (fun k : Nat => (k : Int) + 1)

/-- The `for f in as_completed(futures): chapters.append(f.result())` loop
(lines 131-134), walking the tasks in completion order: `f.result()`
re-raises the first failed task's exception, aborting the loop. -/
def collect_chapters (titleO : Int → Except String (List String))
    (contentO : Int → Except String ApiResponse) :
    List Int → Except String (List Chapter)
  | [] => .ok []
  | i :: rest =>
    match crawl_single titleO contentO i with
    | .error e => .error e
    | .ok c =>
      match collect_chapters titleO contentO rest with
      | .error e => .error e
      | .ok cs => .ok (c :: cs)

/-- `crawl_first_n_chapters(book_id, n)` (lines 121-137): run the tasks for
indices `1..n`, collect them in completion order `order` (any permutation of
the submitted indices), then sort by `index`. -/
def crawl_first_n_chapters (titleO : Int → Except String (List String))
    (contentO : Int → Except String ApiResponse) (n : Int)
    (order : List Int) : Except String (List Chapter) :=
  match collect_chapters titleO contentO order with
  | .error e => .error e
  | .ok chapters => .ok (List.insertionSort chapterLE chapters)

/-! ### Facts about Chapter Fan-Out -/

/-- The submitted chapter indices are strictly increasing. -/
theorem chapterIndices_sorted_lt (n : Int) :
    (chapterIndices n).Sorted (· < ·) := by
  have h : List.Pairwise (fun a b : Nat => (a : Int) + 1 < (b : Int) + 1)
      (List.range n.toNat) :=
    (List.pairwise_lt_range n.toNat).imp (fun hab => by omega)
  show List.Pairwise (· < ·) ((List.range n.toNat).map (fun k : Nat => (k : Int) + 1))
  exact List.pairwise_map.mpr h

/-- The submitted chapter indices contain no duplicates. -/
theorem chapterIndices_nodup (n : Int) : (chapterIndices n).Nodup :=
  (chapterIndices_sorted_lt n).imp (fun h => ne_of_lt h)

/-- If every task in the completion-order list has a successful title fetch,
the collection loop returns one chapter per task, in completion order, with
the title extracted from the fetched page and the content produced by
`crawl_chapter_content`. -/
theorem collect_chapters_ok (titleO : Int → Except String (List String))
    (contentO : Int → Except String ApiResponse) :
    ∀ l : List Int, (∀ i ∈ l, ∃ v, titleO i = .ok v) →
    ∃ cs, collect_chapters titleO contentO l = .ok cs ∧
      cs.map Chapter.index = l ∧
      ∀ c ∈ cs, c.content = crawl_chapter_content (contentO c.index) ∧
        ∀ v, titleO c.index = .ok v → c.title = extract_chapter_title v c.index := by
  intro l
  induction l with
  | nil => intro _; exact ⟨[], rfl, rfl, by simp⟩
  | cons i t ih =>
    intro h
    obtain ⟨v, hv⟩ := h i (List.mem_cons_self i t)
    obtain ⟨cs, hcs, hmap, hmem⟩ := ih (fun b hb => h b (List.mem_cons_of_mem i hb))
    refine ⟨⟨i, extract_chapter_title v i, crawl_chapter_content (contentO i)⟩ :: cs,
      ?_, ?_, ?_⟩
    · simp [collect_chapters, crawl_single, crawl_chapter_title, Except.map, hv, hcs]
    · simp [hmap]
    · intro c hc
      rcases List.mem_cons.mp hc with hc | hc
      · subst hc
        refine ⟨rfl, ?_⟩
        intro v' hv'
        rw [hv] at hv'
        cases hv'
        rfl
      · exact hmem c hc

/-- Sorting the collected chapters by index yields exactly the submitted
index sequence `1..n`, whenever the collected indices are a permutation of
it. -/
theorem sorted_map_index_eq (cs : List Chapter) (n : Int)
    (hperm : (cs.map Chapter.index).Perm (chapterIndices n)) :
    (List.insertionSort chapterLE cs).map Chapter.index = chapterIndices n := by
  have hp1 : (List.insertionSort chapterLE cs).Perm cs :=
    List.perm_insertionSort chapterLE cs
  have hmapperm :
      ((List.insertionSort chapterLE cs).map Chapter.index).Perm (chapterIndices n) :=
    (hp1.map Chapter.index).trans hperm
  have hsorted : List.Sorted chapterLE (List.insertionSort chapterLE cs) :=
    List.sorted_insertionSort chapterLE cs
  have hsle :
      ((List.insertionSort chapterLE cs).map Chapter.index).Sorted (· ≤ ·) := by
    refine List.pairwise_map.mpr ?_
    exact hsorted.imp (fun h => h)
  have hnodup : ((List.insertionSort chapterLE cs).map Chapter.index).Nodup :=
    hmapperm.symm.nodup (chapterIndices_nodup n)
  have hslt :
      ((List.insertionSort chapterLE cs).map Chapter.index).Sorted (· < ·) :=
    hsle.lt_of_le hnodup
  exact List.eq_of_perm_of_sorted hmapperm hslt (chapterIndices_sorted_lt n)

/-- Master lemma for Chapter Fan-Out: when every title fetch succeeds (the
only way a chapter task can raise), the fan-out returns normally, the
returned indices are exactly `1..n` in order, and every chapter carries the
extracted title and the (possibly degraded) content. -/
theorem crawl_first_n_ok (titleO : Int → Except String (List String))
    (contentO : Int → Except String ApiResponse) (n : Int) (order : List Int)
    (hperm : order.Perm (chapterIndices n))
    (ht : ∀ i ∈ chapterIndices n, ∃ v, titleO i = .ok v) :
    ∃ cs, crawl_first_n_chapters titleO contentO n order = .ok cs ∧
      cs.map Chapter.index = chapterIndices n ∧
      ∀ c ∈ cs, c.content = crawl_chapter_content (contentO c.index) ∧
        ∀ v, titleO c.index = .ok v → c.title = extract_chapter_title v c.index := by
  obtain ⟨cs, hcs, hmap, hmem⟩ := collect_chapters_ok titleO contentO order
    (fun i hi => ht i (hperm.mem_iff.mp hi))
  refine ⟨List.insertionSort chapterLE cs, ?_, ?_, ?_⟩
  · simp [crawl_first_n_chapters, hcs]
  · exact sorted_map_index_eq cs n (hmap ▸ hperm)
  · intro c hc
    exact hmem c ((List.perm_insertionSort chapterLE cs).mem_iff.mp hc)

/-- C3: for every chapter count `n ≥ 0`, when all chapter tasks complete
(every title fetch succeeds; content may degrade), Chapter Fan-Out returns
exactly `n` chapters whose index fields, in output order, are strictly
increasing and equal to `1, 2, ..., n` (`chapterIndices n`), regardless of
the completion order. -/
theorem chapter_fanout_sorted_one_to_n (titleO : Int → Except String (List String))
    (contentO : Int → Except String ApiResponse) (n : Int) (hn : 0 ≤ n)
    (order : List Int) (hperm : order.Perm (chapterIndices n))
    (ht : ∀ i ∈ chapterIndices n, ∃ v, titleO i = .ok v) :
    ∃ cs, crawl_first_n_chapters titleO contentO n order = .ok cs ∧
      cs.map Chapter.index = chapterIndices n ∧
      (cs.map Chapter.index).Sorted (· < ·) ∧
      (cs.length : Int) = n := by
  obtain ⟨cs, h1, h2, _⟩ := crawl_first_n_ok titleO contentO n order hperm ht
  refine ⟨cs, h1, h2, h2 ▸ chapterIndices_sorted_lt n, ?_⟩
  have hl : cs.length = (chapterIndices n).length := by
    rw [← List.length_map cs Chapter.index, h2]
  rw [hl]
  unfold chapterIndices
  rw [List.length_map, List.length_range]
  exact Int.toNat_of_nonneg hn

/-- Witness for C3: two chapters completing in the order 2, 1. -/
theorem chapter_fanout_sorted_one_to_n_witness :
    ∃ cs, crawl_first_n_chapters (fun _ => Except.ok ["t"])
        (fun _ => Except.error "down") 2 [2, 1] = Except.ok cs ∧
      cs.map Chapter.index = chapterIndices 2 ∧
      (cs.map Chapter.index).Sorted (· < ·) ∧
      (cs.length : Int) = 2 :=
  chapter_fanout_sorted_one_to_n (fun _ => Except.ok ["t"]) (fun _ => Except.error "down")
    2 (by decide) [2, 1] (by decide) (fun _ _ => ⟨["t"], rfl⟩)

/-- C8: for every `n ≤ 0` (including negative `n`), `range(1, n+1)` is empty,
so Chapter Fan-Out submits no task and returns the empty chapter list, for
any oracles (no fetch is consulted). -/
theorem chapter_fanout_nonpos_empty (n : Int) (hn : n ≤ 0) :
    chapterIndices n = [] ∧
    ∀ (titleO : Int → Except String (List String))
      (contentO : Int → Except String ApiResponse),
      crawl_first_n_chapters titleO contentO n [] = .ok [] := by
  have h : chapterIndices n = [] := by
    unfold chapterIndices
    rw [Int.toNat_of_nonpos hn]
    rfl
  exact ⟨h, fun _ _ => rfl⟩

/-- Witness for C8 at `n = -1`. -/
theorem chapter_fanout_nonpos_empty_witness :
    chapterIndices (-1) = [] ∧
    crawl_first_n_chapters (fun _ => Except.error "down")
      (fun _ => Except.error "down") (-1) [] = .ok [] :=
  ⟨(chapter_fanout_nonpos_empty (-1) (by decide)).1,
   (chapter_fanout_nonpos_empty (-1) (by decide)).2 _ _⟩

/-- C2 counterexample: a title fetch that fails after its retries is fatal to
the whole fan-out — `crawl_chapter_title` is not wrapped in `try/except`, so
`f.result()` re-raises and `crawl_first_n_chapters` propagates the exception
instead of returning a chapter list.  Here `n = 1`, the content fetch would
even succeed, yet the fan-out raises. -/
theorem chapter_title_failure_fatal :
    crawl_first_n_chapters (fun _ => Except.error "network down")
      (fun _ => Except.ok ⟨some 200, some ⟨some (Html.text "body")⟩⟩) 1 [1]
      = Except.error "network down" := rfl

/-- C2 amended: no per-chapter CONTENT-fetch failure is fatal — when every
title fetch succeeds, a chapter whose content fetch raised (exhausted its
retries) still appears in the returned sequence with `content = ""`, and the
fan-out returns normally.  A failed TITLE fetch, by contrast, propagates and
aborts the fan-out (see the counterexample). -/
theorem chapter_content_failure_degrades (titleO : Int → Except String (List String))
    (contentO : Int → Except String ApiResponse) (n : Int) (order : List Int)
    (hperm : order.Perm (chapterIndices n))
    (ht : ∀ i ∈ chapterIndices n, ∃ v, titleO i = .ok v)
    (i : Int) (hi : i ∈ chapterIndices n) (e : String)
    (hc : contentO i = .error e) :
    ∃ cs, crawl_first_n_chapters titleO contentO n order = .ok cs ∧
      ∃ c ∈ cs, c.index = i ∧ c.content = "" := by
  obtain ⟨cs, h1, h2, h3⟩ := crawl_first_n_ok titleO contentO n order hperm ht
  have hmem : i ∈ cs.map Chapter.index := h2 ▸ hi
  obtain ⟨c, hcmem, hci⟩ := List.mem_map.mp hmem
  refine ⟨cs, h1, c, hcmem, hci, ?_⟩
  rw [(h3 c hcmem).1, hci, hc]
  rfl

/-- Witness for the amended C2: one chapter whose content fetch fails. -/
theorem chapter_content_failure_degrades_witness :
    ∃ cs, crawl_first_n_chapters (fun _ => Except.ok ["t"])
        (fun _ => Except.error "content down") 1 [1] = Except.ok cs ∧
      ∃ c ∈ cs, c.index = 1 ∧ c.content = "" :=
  chapter_content_failure_degrades (fun _ => Except.ok ["t"])
    (fun _ => Except.error "content down") 1 [1] (by decide)
    (fun _ _ => ⟨["t"], rfl⟩) 1 (by decide) "content down" rfl

/-- C6: a content-API response with a status other than 200, or with the
`"data"` or `"content"` field missing, degrades to `content = ""` without
raising, and the chapter stays in the fan-out result; a well-formed 200
response yields the nested content with markup stripped and paragraph
breaks preserved as newlines (`get_text(separator="\n")`). -/
theorem chapter_bad_response_degrades (resp : ApiResponse)
    (titleO : Int → Except String (List String))
    (contentO : Int → Except String ApiResponse) (n : Int) (order : List Int)
    (hperm : order.Perm (chapterIndices n))
    (ht : ∀ i ∈ chapterIndices n, ∃ v, titleO i = .ok v)
    (i : Int) (hi : i ∈ chapterIndices n)
    (hr : contentO i = .ok resp)
    (hbad : resp.status ≠ some 200 ∨ resp.data = none ∨
      ∃ d, resp.data = some d ∧ d.content = none) :
    crawl_chapter_content (.ok resp) = "" ∧
    (∃ cs, crawl_first_n_chapters titleO contentO n order = .ok cs ∧
      ∃ c ∈ cs, c.index = i ∧ c.content = "") ∧
    ∀ (good : ApiResponse) (d : ApiData) (raw : Html),
      good.status = some 200 → good.data = some d → d.content = some raw →
      crawl_chapter_content (.ok good) = get_text_newline raw := by
  have hu : crawl_chapter_content (.ok resp) = "" := by
    by_cases hs : resp.status = some 200
    · rcases hbad with hb | hb | ⟨d, hd, hcont⟩
      · exact absurd hs hb
      · simp [crawl_chapter_content, hs, hb]
      · simp [crawl_chapter_content, hs, hd, hcont]
    · simp [crawl_chapter_content, hs]
  refine ⟨hu, ?_, ?_⟩
  · obtain ⟨cs, h1, h2, h3⟩ := crawl_first_n_ok titleO contentO n order hperm ht
    have hmem : i ∈ cs.map Chapter.index := h2 ▸ hi
    obtain ⟨c, hcmem, hci⟩ := List.mem_map.mp hmem
    refine ⟨cs, h1, c, hcmem, hci, ?_⟩
    rw [(h3 c hcmem).1, hci, hr, hu]
  · intro good d raw h200 hd hcont
    simp [crawl_chapter_content, h200, hd, hcont]

/-- Witness for C6: a response with status 500 on the only chapter. -/
theorem chapter_bad_response_degrades_witness :
    crawl_chapter_content (.ok ⟨some 500, none⟩) = "" ∧
    (∃ cs, crawl_first_n_chapters (fun _ => Except.ok ["t"])
        (fun _ => Except.ok ⟨some 500, none⟩) 1 [1] = Except.ok cs ∧
      ∃ c ∈ cs, c.index = 1 ∧ c.content = "") ∧
    ∀ (good : ApiResponse) (d : ApiData) (raw : Html),
      good.status = some 200 → good.data = some d → d.content = some raw →
      crawl_chapter_content (.ok good) = get_text_newline raw :=
  chapter_bad_response_degrades ⟨some 500, none⟩ (fun _ => Except.ok ["t"])
    (fun _ => Except.ok ⟨some 500, none⟩) 1 [1] (by decide)
    (fun _ _ => ⟨["t"], rfl⟩) 1 (by decide) rfl (by simp)

/-! ### Item-ID discovery: `get_book_ids` (src/app.py lines 38-49) -/

/-- Match `re`'s pattern `/book/(\d+)/` at the start of `cs`: the literal
`/book/`, a nonempty digit run, then `/`; the captured group is the digit
run.  (Greedy `\d+` followed by a mandatory `/` matches exactly the maximal
digit run — backtracking into the run always faces another digit, never a
slash.) -/
def matchBookAt (cs : List Char) : Option String :=
  if cs.take 6 = "/book/".toList then
    let rest := cs.drop 6
    let digits := rest.takeWhile Char.isDigit
    if digits.isEmpty then none
    else
      match rest.drop digits.length with
      | '/' :: _ => some (String.mk digits)
      | _ => none
  else none

/-- `re.search(r"/book/(\d+)/", href)`: captured group of the leftmost
match, trying start positions left to right. -/
def searchBookId : List Char → Option String
  | [] => none
  | c :: rest =>
    match matchBookAt (c :: rest) with
    | some s => some s
    | none => searchBookId rest

/-- The ID extracted from one `a.bookImg` href, if any (lines 45-47). -/
def extract_book_id (href : String) : Option String :=
  searchBookId href.toList

/-- `get_book_ids` (lines 38-49), after the catalog-page fetch: collect the
per-anchor matches into the set `ids` and return `sorted(ids)` — Python's
`sorted` on `str` is ascending lexicographic order. -/
def get_book_ids (hrefs : List String) : List String :=
  List.insertionSort (· ≤ ·) (hrefs.filterMap extract_book_id).dedup

/-- C9: item-ID discovery returns a duplicate-free list sorted ascending in
the lexicographic string order, and its output is invariant under
reordering of the anchors on the page (a function of the page's content,
not of encounter order). -/
theorem book_ids_nodup_sorted (hrefs : List String) :
    (get_book_ids hrefs).Nodup ∧
    (get_book_ids hrefs).Sorted (· ≤ ·) ∧
    ∀ hrefs₂, hrefs.Perm hrefs₂ → get_book_ids hrefs = get_book_ids hrefs₂ := by
  refine ⟨?_, ?_, ?_⟩
  · exact (List.perm_insertionSort _ _).symm.nodup
      (List.nodup_dedup (hrefs.filterMap extract_book_id))
  · exact List.sorted_insertionSort _ _
  · intro hrefs₂ hp
    have hd : ((hrefs.filterMap extract_book_id).dedup).Perm
        ((hrefs₂.filterMap extract_book_id).dedup) :=
      (hp.filterMap extract_book_id).dedup
    have h1 : (get_book_ids hrefs).Perm (get_book_ids hrefs₂) :=
      ((List.perm_insertionSort _ _).trans hd).trans
        (List.perm_insertionSort _ _).symm
    exact List.eq_of_perm_of_sorted h1 (List.sorted_insertionSort _ _)
      (List.sorted_insertionSort _ _)

/-- Witness for C9 on a concrete page: IDs `12` and `3`, sorted as strings
(`"12" < "3"`), identical under anchor reordering. -/
theorem book_ids_nodup_sorted_witness :
    (get_book_ids ["/book/12/x", "/book/3/"]).Nodup ∧
    (get_book_ids ["/book/12/x", "/book/3/"]).Sorted (· ≤ ·) ∧
    get_book_ids ["/book/12/x", "/book/3/"] = get_book_ids ["/book/3/", "/book/12/x"] :=
  ⟨(book_ids_nodup_sorted ["/book/12/x", "/book/3/"]).1,
   (book_ids_nodup_sorted ["/book/12/x", "/book/3/"]).2.1,
   (book_ids_nodup_sorted ["/book/12/x", "/book/3/"]).2.2
     ["/book/3/", "/book/12/x"] (List.Perm.swap "/book/3/" "/book/12/x" [])⟩

/-! ### Item Fan-Out and orchestrator: `crawl_api` (src/app.py lines 146-172)

`crawl_book` fetches the book's metadata (`crawl_book_info`) and then its
chapters; there is no `try/except` anywhere in `crawl_api`, so the first
task whose `f.result()` re-raises aborts the request — the code never
produces an `ItemError` record. -/

/-- The metadata record built by `crawl_book_info` (lines 84-92); the HTML
field extraction itself is glue, so the whole record comes from the
metadata oracle. -/
structure BookInfo where
  id : String
  title : String
  author : String
  cover_image : String
  description : String
  genres : List String
  url : String
deriving DecidableEq

/-- A completed book: the metadata dict plus its `"chapters"` key
(line 162). -/
structure BookReport where
  info : BookInfo
  chapters : List Chapter
deriving DecidableEq

/-- `crawl_book(book_id)` (lines 159-164): metadata first — its fetch
failure propagates — then the chapter fan-out for this book.  `metaO b` is
the outcome of `crawl_book_info(b)` (`.error` = `safe_get` raised after its
retries); `titleO b`, `contentO b` and `orderFor b` drive the book's
chapter fan-out. -/
def crawl_book (metaO : String → Except String BookInfo)
    (titleO : String → Int → Except String (List String))
    (contentO : String → Int → Except String ApiResponse)
    (orderFor : String → List Int) (num_chapters : Int) (book_id : String) :
    Except String BookReport :=
  match metaO book_id with
  | .error e => .error e
  | .ok info =>
    match crawl_first_n_chapters (titleO book_id) (contentO book_id)
        num_chapters (orderFor book_id) with
    | .error e => .error e
    | .ok chapters => .ok ⟨info, chapters⟩

/-- The `for f in as_completed(futures): results.append(f.result())` loop of
`crawl_api` (lines 166-169), walking the book tasks in completion order;
the first failed task's exception aborts the loop. -/
def collect_books (metaO : String → Except String BookInfo)
    (titleO : String → Int → Except String (List String))
    (contentO : String → Int → Except String ApiResponse)
    (orderFor : String → List Int) (num_chapters : Int) :
    List String → Except String (List BookReport)
  | [] => .ok []
  | b :: rest =>
    match crawl_book metaO titleO contentO orderFor num_chapters b with
    | .error e => .error e
    | .ok r =>
      match collect_books metaO titleO contentO orderFor num_chapters rest with
      | .error e => .error e
      | .ok rs => .ok (r :: rs)

/-- Outcome of the `/crawl` route: the 404 "Không tìm thấy book nào" answer,
the normal `{"results": ...}` answer, or an exception escaping the route
(Flask turns it into a 500 — the code has no handler for it). -/
inductive CrawlOutcome where
  | noBooks : CrawlOutcome
  | ok (results : List BookReport) : CrawlOutcome
  | raised (e : String) : CrawlOutcome
deriving DecidableEq

/-- `crawl_api` (lines 146-172): discover the IDs on the catalog page
(`catalog` is the fetched page's `a.bookImg` hrefs, or the exception raised
while fetching it), return the 404 outcome if none, otherwise run the book
tasks in completion order `bookOrder`. -/
def crawl_api (catalog : Except String (List String))
    (metaO : String → Except String BookInfo)
    (titleO : String → Int → Except String (List String))
    (contentO : String → Int → Except String ApiResponse)
    (orderFor : String → List Int) (num_chapters : Int)
    (bookOrder : List String) : CrawlOutcome :=
  match catalog with
  | .error e => .raised e
  | .ok hrefs =>
    let book_ids := get_book_ids hrefs
    if book_ids.isEmpty then .noBooks
    else
      match collect_books metaO titleO contentO orderFor num_chapters bookOrder with
      | .error e => .raised e
      | .ok results => .ok results

/-- Number of per-item entries (`ItemReport`s plus `ItemError`s) in the
route's answer.  The code never builds an `ItemError` record, so only a
normal answer contributes entries. -/
def entryCount : CrawlOutcome → Nat
  | .ok results => results.length
  | _ => 0

/-- If every book task in the completion-order list succeeds, the collection
loop returns one report per task. -/
theorem collect_books_ok (metaO : String → Except String BookInfo)
    (titleO : String → Int → Except String (List String))
    (contentO : String → Int → Except String ApiResponse)
    (orderFor : String → List Int) (num_chapters : Int) :
    ∀ l : List String,
      (∀ b ∈ l, ∃ r, crawl_book metaO titleO contentO orderFor num_chapters b = .ok r) →
      ∃ rs, collect_books metaO titleO contentO orderFor num_chapters l = .ok rs ∧
        rs.length = l.length := by
  intro l
  induction l with
  | nil => intro _; exact ⟨[], rfl, rfl⟩
  | cons b t ih =>
    intro h
    obtain ⟨r, hr⟩ := h b (List.mem_cons_self b t)
    obtain ⟨rs, hrs, hlen⟩ := ih (fun b' hb' => h b' (List.mem_cons_of_mem b hb'))
    exact ⟨r :: rs, by simp [collect_books, hr, hrs], by simp [hlen]⟩

/-- C1 counterexample: one discovered ID (`"111"`) whose metadata fetch
exhausts its retries.  The claim demands `#ItemReport + #ItemError = 1`;
instead `f.result()` re-raises, `crawl_api` propagates the exception, and
the answer carries 0 entries — the failure is not converted to data. -/
theorem item_failure_not_converted :
    crawl_api (Except.ok ["/book/111/"]) (fun _ => Except.error "timeout")
      (fun _ _ => Except.ok ["t"]) (fun _ _ => Except.error "x")
      (fun _ => []) 5 ["111"]
      = CrawlOutcome.raised "timeout" ∧
    entryCount (crawl_api (Except.ok ["/book/111/"]) (fun _ => Except.error "timeout")
      (fun _ _ => Except.ok ["t"]) (fun _ _ => Except.error "x")
      (fun _ => []) 5 ["111"]) = 0 ∧
    (get_book_ids ["/book/111/"]).length = 1 ∧
    entryCount (crawl_api (Except.ok ["/book/111/"]) (fun _ => Except.error "timeout")
      (fun _ _ => Except.ok ["t"]) (fun _ _ => Except.error "x")
      (fun _ => []) 5 ["111"]) ≠ (get_book_ids ["/book/111/"]).length := by
  refine ⟨rfl, rfl, rfl, ?_⟩
  decide

/-- C1 amended: the per-item accounting holds only when every item task
succeeds — then Item Fan-Out returns exactly one `ItemReport` per
discovered ID and no `ItemError` (the code never builds one).  An item
whose metadata fetch exhausts its retries raises without attempting its
chapter fan-out (for any chapter oracles), and that exception escapes
`crawl_api`, discarding the siblings' results instead of reporting them. -/
theorem item_fanout_accounting (hrefs : List String)
    (metaO : String → Except String BookInfo)
    (titleO : String → Int → Except String (List String))
    (contentO : String → Int → Except String ApiResponse)
    (orderFor : String → List Int) (num_chapters : Int) (bookOrder : List String)
    (hperm : bookOrder.Perm (get_book_ids hrefs))
    (hne : get_book_ids hrefs ≠ [])
    (hok : ∀ b ∈ bookOrder, ∃ r,
      crawl_book metaO titleO contentO orderFor num_chapters b = .ok r) :
    (∃ rs, crawl_api (.ok hrefs) metaO titleO contentO orderFor num_chapters bookOrder
        = .ok rs ∧
      rs.length = (get_book_ids hrefs).length ∧
      entryCount (crawl_api (.ok hrefs) metaO titleO contentO orderFor num_chapters bookOrder)
        = (get_book_ids hrefs).length) ∧
    ∀ (metaO' : String → Except String BookInfo)
      (titleO' : String → Int → Except String (List String))
      (contentO' : String → Int → Except String ApiResponse)
      (orderFor' : String → List Int) (b e : String),
      metaO' b = .error e →
      crawl_book metaO' titleO' contentO' orderFor' num_chapters b = .error e := by
  obtain ⟨rs, hrs, hlen⟩ :=
    collect_books_ok metaO titleO contentO orderFor num_chapters bookOrder hok
  have hie : ¬ (get_book_ids hrefs).isEmpty = true :=
    fun h => hne (List.isEmpty_iff.mp h)
  have hapi : crawl_api (.ok hrefs) metaO titleO contentO orderFor num_chapters bookOrder
      = .ok rs := by
    simp [crawl_api, hie, hrs]
  refine ⟨⟨rs, hapi, ?_, ?_⟩, ?_⟩
  · rw [hlen, hperm.length_eq]
  · rw [hapi]
    show rs.length = (get_book_ids hrefs).length
    rw [hlen, hperm.length_eq]
  · intro metaO' titleO' contentO' orderFor' b e hb
    simp [crawl_book, hb]

/-- Witness for the amended C1: one discovered ID whose task succeeds. -/
theorem item_fanout_accounting_witness :
    (∃ rs, crawl_api (.ok ["/book/111/"])
        (fun b => Except.ok ⟨b, "T", "A", "", "", [], ""⟩)
        (fun _ _ => Except.ok ["t"]) (fun _ _ => Except.error "x")
        (fun _ => []) 0 ["111"] = .ok rs ∧
      rs.length = (get_book_ids ["/book/111/"]).length ∧
      entryCount (crawl_api (.ok ["/book/111/"])
        (fun b => Except.ok ⟨b, "T", "A", "", "", [], ""⟩)
        (fun _ _ => Except.ok ["t"]) (fun _ _ => Except.error "x")
        (fun _ => []) 0 ["111"])
        = (get_book_ids ["/book/111/"]).length) ∧
    ∀ (metaO' : String → Except String BookInfo)
      (titleO' : String → Int → Except String (List String))
      (contentO' : String → Int → Except String ApiResponse)
      (orderFor' : String → List Int) (b e : String),
      metaO' b = .error e →
      crawl_book metaO' titleO' contentO' orderFor' 0 b = .error e :=
  item_fanout_accounting ["/book/111/"]
    (fun b => Except.ok ⟨b, "T", "A", "", "", [], ""⟩)
    (fun _ _ => Except.ok ["t"]) (fun _ _ => Except.error "x")
    (fun _ => []) 0 ["111"] (by decide) (by decide)
    (fun b _ => ⟨⟨⟨b, "T", "A", "", "", [], ""⟩, []⟩, by simp [crawl_book]; rfl⟩)

/-- C5: whenever catalog-page extraction yields zero item IDs, the route
answers the 404 "no books found" outcome at once, independently of every
item-level oracle — Item Fan-Out is never invoked and no per-item fetch is
performed. -/
theorem no_books_short_circuit (hrefs : List String)
    (h : get_book_ids hrefs = []) :
    ∀ (metaO : String → Except String BookInfo)
      (titleO : String → Int → Except String (List String))
      (contentO : String → Int → Except String ApiResponse)
      (orderFor : String → List Int) (num_chapters : Int) (bookOrder : List String),
      crawl_api (.ok hrefs) metaO titleO contentO orderFor num_chapters bookOrder
        = CrawlOutcome.noBooks := by
  intro metaO titleO contentO orderFor num_chapters bookOrder
  simp [crawl_api, h]

/-- Witness for C5: a catalog page without any `/book/<digits>/` anchor. -/
theorem no_books_short_circuit_witness :
    crawl_api (.ok ["https://tadu.com/store"]) (fun _ => Except.error "m")
      (fun _ _ => Except.error "m") (fun _ _ => Except.error "m")
      (fun _ => []) 5 [] = CrawlOutcome.noBooks :=
  no_books_short_circuit ["https://tadu.com/store"] rfl
    (fun _ => Except.error "m") (fun _ _ => Except.error "m")
    (fun _ _ => Except.error "m") (fun _ => []) 5 []

end TaduCrawler
